import Mathlib

/-!
Shallow embedding of the adr-reservation web application and proofs about
the frozen claims.  Times are modelled as integer milliseconds since the
epoch (the values handled by Date.now and by the backend timestamp
columns); database tables are modelled as lists of records; remote calls
that can fail are modelled with Except, taking the outcome of the
external service as an explicit argument.
-/

namespace AdrReservation

/-- A row of the slots table (src/src/lib/supabase.js, supabase/schema.sql):
id, start_time, end_time, is_available.  Timestamps are ms-since-epoch. -/
structure Slot where
  id : Nat
  start_time : Int
  end_time : Int
  is_available : Bool
deriving Repr, DecidableEq

/-- A row of the reservations table: id, slot_id (nullable reference to a
slot), user identity, status fields. -/
structure Reservation where
  id : Nat
  slot_id : Option Nat
  user_name : String
  user_email : String
  status : String
  status_reason : String
deriving Repr, DecidableEq

/-- The backend state visible to the client: the slots and reservations
tables. -/
structure Database where
  slots : List Slot
  reservations : List Reservation
deriving Repr, DecidableEq

/-- Comparison used by the order(start_time) clause of the slot queries. -/
def slotLe (a b : Slot) : Bool := a.start_time ≤ b.start_time

/-- Insert a slot into a list sorted by start_time (model of the
order(start_time) clause of the queries). -/
def insertByStart (s : Slot) : List Slot → List Slot
  | [] => [s]
  | t :: ts => if slotLe s t then s :: t :: ts else t :: insertByStart s ts

/-- Sort a list of slots by start_time. -/
def sortByStart (l : List Slot) : List Slot := l.foldr insertByStart []

theorem mem_insertByStart {a s : Slot} {l : List Slot} :
    a ∈ insertByStart s l ↔ a = s ∨ a ∈ l := by
  induction l with
  | nil => simp [insertByStart]
  | cons t ts ih =>
    by_cases h : slotLe s t = true
    · simp [insertByStart, h]
    · rw [insertByStart, if_neg h]
      simp only [List.mem_cons, ih]
      tauto

theorem mem_sortByStart {a : Slot} {l : List Slot} :
    a ∈ sortByStart l ↔ a ∈ l := by
  induction l with
  | nil => simp [sortByStart]
  | cons t ts ih =>
    simp only [sortByStart, List.foldr] at *
    rw [mem_insertByStart, ih]
    simp

/-- getAvailableSlots (src/src/lib/supabase.js lines 20-51): selects every
row of slots with start_time >= startDate and end_time <= endDate, ordered
by start_time.  The RLS (42501) fallback issues the identical query through
the admin client, so it is availability-equivalent and is collapsed here. -/
def getAvailableSlots (startDate endDate : Int) (db : Database) : List Slot :=
  sortByStart (db.slots.filter
    (fun s => decide (startDate ≤ s.start_time) && decide (s.end_time ≤ endDate)))

/-- getClosestAvailableSlot (src/src/lib/supabase.js lines 276-292): rows
with now <= start_time <= futureDate and is_available = true, ordered by
start_time, limit 1; returns the first row or null. -/
def getClosestAvailableSlot (now futureDate : Int) (db : Database) : Option Slot :=
  ((sortByStart (db.slots.filter
      (fun s => decide (now ≤ s.start_time) && decide (s.start_time ≤ futureDate)
        && s.is_available))).take 1).head?

/-- A booked (unavailable) slot lying inside the queried date range. -/
def c1Slot : Slot := { id := 1, start_time := 0, end_time := 10, is_available := false }

/-- An available slot used for the C1 witness. -/
def c1AvailSlot : Slot := { id := 2, start_time := 5, end_time := 15, is_available := true }

/-- C1 fails as stated: getAvailableSlots does not filter on is_available,
so a slot whose is_available flag is false is returned whenever its time
range lies inside the queried range. -/
theorem c1_counterexample :
    c1Slot ∈ getAvailableSlots 0 10 { slots := [c1Slot], reservations := [] } ∧
    c1Slot.is_available = false := by
  decide

/-- C1 (amended): getAvailableSlots returns exactly the slots of the
queried date range, regardless of their is_available flag; the
availability-filtered query getClosestAvailableSlot never returns a slot
whose is_available flag is false. -/
theorem c1_availability_queries (q1 q2 now fut : Int) (db : Database) (s : Slot) :
    (s ∈ getAvailableSlots q1 q2 db ↔
      (s ∈ db.slots ∧ q1 ≤ s.start_time ∧ s.end_time ≤ q2)) ∧
    (getClosestAvailableSlot now fut db = some s → s.is_available = true) := by
  constructor
  · rw [getAvailableSlots, mem_sortByStart, List.mem_filter]
    simp
  · intro h
    have hmem : s ∈ (sortByStart (db.slots.filter
        (fun t => decide (now ≤ t.start_time) && decide (t.start_time ≤ fut)
          && t.is_available))).take 1 := by
      unfold getClosestAvailableSlot at h
      exact List.mem_of_mem_head? (by rw [h]; rfl)
    have hmem2 := mem_sortByStart.mp (List.mem_of_mem_take hmem)
    have := (List.mem_filter.mp hmem2).2
    simp only [Bool.and_eq_true] at this
    exact this.2

/-- Concrete instantiation of c1_availability_queries. -/
theorem c1_witness :
    c1AvailSlot ∈ getAvailableSlots 0 20 { slots := [c1AvailSlot], reservations := [] } ∧
    c1AvailSlot.is_available = true := by
  refine ⟨(c1_availability_queries 0 20 0 20
    { slots := [c1AvailSlot], reservations := [] } c1AvailSlot).1.mpr (by decide),
    c1_availability_queries 0 20 0 20
      { slots := [c1AvailSlot], reservations := [] } c1AvailSlot |>.2 (by decide)⟩

/-- resetSlotAvailability (src/unnamed/part_005 lines 283-297): sets
is_available = true on every slot row whose id matches. -/
def resetSlotAvailability (slotId : Nat) (db : Database) : Database :=
  { db with
    slots := db.slots.map fun s =>
      if s.id = slotId then { s with is_available := true } else s }

/-- cancelReservation (src/unnamed/part_006 lines 241-258, the user
cancellation): deletes the reservation row and returns success; the slots
table is not touched. -/
def cancelReservation (reservationId : Nat) (db : Database) : Database :=
  { db with reservations := db.reservations.filter (fun r => r.id ≠ reservationId) }

/-- updateReservationStatus (src/unnamed/part_005 lines 360-385): updates
status and status_reason of the matching reservation row; the slots table
is not touched. -/
def updateReservationStatus (reservationId : Nat) (status reason : String)
    (db : Database) : Database :=
  { db with
    reservations := db.reservations.map fun r =>
      if r.id = reservationId then
        { r with status := status, status_reason := reason }
      else r }

/-- deleteReservation (src/unnamed/part_005 lines 387-423, the admin
deletion): fetches the reservation with single() (errors unless exactly one
row matches, modelled as none), deletes it, and when its slot_id is
non-null resets that slot to available; returns the fetched reservation. -/
def deleteReservation (reservationId : Nat) (db : Database) :
    Option (Reservation × Database) :=
  match db.reservations.filter (fun r => r.id = reservationId) with
  | [r] =>
    let db1 : Database :=
      { db with reservations := db.reservations.filter (fun x => x.id ≠ reservationId) }
    let db2 : Database :=
      match r.slot_id with
      | some sid => resetSlotAvailability sid db1
      | none => db1
    some (r, db2)
  | _ => none

/-- The reservation used by the C2 counterexample and witness. -/
def c2Reservation : Reservation :=
  { id := 10, slot_id := some 1, user_name := "n", user_email := "e",
    status := "confirmed", status_reason := "" }

/-- Database used by the C2 counterexample: one booked slot and the
reservation holding it. -/
def c2Db : Database :=
  { slots := [{ id := 1, start_time := 0, end_time := 10, is_available := false }],
    reservations := [c2Reservation] }

/-- C2 fails as stated: after the user cancellation of reservation 10, and
likewise after an admin status change to cancelled, slot 1 (the slot the
reservation referenced) still has is_available = false. -/
theorem c2_counterexample :
    ((cancelReservation 10 c2Db).slots.filter (fun s => s.id = 1)) =
      [{ id := 1, start_time := 0, end_time := 10, is_available := false }] ∧
    ((updateReservationStatus 10 "cancelled" "no show" c2Db).slots.filter
      (fun s => s.id = 1)) =
      [{ id := 1, start_time := 0, end_time := 10, is_available := false }] := by
  decide

/-- C2 (amended): only the admin deletion operation resets the slot
referenced by the deleted reservation to available (when its slot_id is
non-null); the user cancellation operation and the status-change operation
leave the slots table unchanged. -/
theorem c2_slot_release (db : Database) (rid sid : Nat) (status reason : String) :
    (∀ (r : Reservation) (db2 : Database),
       deleteReservation rid db = some (r, db2) → r.slot_id = some sid →
       ∀ s ∈ db2.slots, s.id = sid → s.is_available = true) ∧
    ((cancelReservation rid db).slots = db.slots) ∧
    ((updateReservationStatus rid status reason db).slots = db.slots) := by
  refine ⟨?_, rfl, rfl⟩
  intro r db2 hdel hsid s hs hid
  unfold deleteReservation at hdel
  rcases hfilter : db.reservations.filter (fun x => x.id = rid) with _ | ⟨r0, rest⟩
  · rw [hfilter] at hdel; exact absurd hdel (by simp)
  rcases rest with _ | ⟨r1, rest2⟩
  · rw [hfilter] at hdel
    simp only [Option.some.injEq, Prod.mk.injEq] at hdel
    rcases hdel with ⟨hr, hdb2⟩
    subst hr
    rw [hsid] at hdb2
    rw [← hdb2] at hs
    simp only [resetSlotAvailability, List.mem_map] at hs
    rcases hs with ⟨t, -, ht⟩
    by_cases hteq : t.id = sid
    · rw [if_pos hteq] at ht
      rw [← ht]
    · rw [if_neg hteq] at ht
      exact absurd (ht ▸ hid) hteq
  · rw [hfilter] at hdel; exact absurd hdel (by simp)

/-- Database state after the admin deletion in the C2 witness. -/
def c2DbAfter : Database :=
  { slots := [{ id := 1, start_time := 0, end_time := 10, is_available := true }],
    reservations := [] }

/-- Concrete instantiation of c2_slot_release. -/
theorem c2_witness :
    ((cancelReservation 10 c2Db).slots = c2Db.slots) ∧
    (∀ s ∈ c2DbAfter.slots, s.id = 1 → s.is_available = true) := by
  refine ⟨(c2_slot_release c2Db 10 1 "cancelled" "x").2.1, ?_⟩
  exact (c2_slot_release c2Db 10 1 "cancelled" "x").1 c2Reservation c2DbAfter
    (by decide) (by decide)

/-- Per-identifier record of the rate limiter store
(src/src/lib/humanVerification.js rateLimiter part): a list of attempt
timestamps and the start of the current fixed window. -/
structure UserAttempts where
  attempts : List Int
  lastReset : Int
deriving Repr, DecidableEq

/-- The in-memory attempt store: an insertion-ordered map from identifier
to UserAttempts, modelled as an association list. -/
abbrev AttemptStore : Type := List (String × UserAttempts)

/-- Map.get: the value bound to the identifier, if any. -/
def storeGet (store : AttemptStore) (identifier : String) : Option UserAttempts :=
  (store.find? (fun p => p.1 == identifier)).map Prod.snd

/-- Map.set: replace the binding of the identifier, or append a new one. -/
def storeSet (store : AttemptStore) (identifier : String) (v : UserAttempts) :
    AttemptStore :=
  if store.any (fun p => p.1 == identifier) then
    store.map fun p => if p.1 == identifier then (identifier, v) else p
  else store ++ [(identifier, v)]

/-- RATE_LIMIT_WINDOW: one hour in milliseconds. -/
def RATE_LIMIT_WINDOW : Int := 60 * 60 * 1000

/-- MAX_ATTEMPTS: maximum booking attempts per window. -/
def MAX_ATTEMPTS : Nat := 5

/-- The object returned by checkRateLimit.  The empty-identifier early
return carries only the limited flag, so the other fields are optional. -/
structure RateLimitStatus where
  limited : Bool
  remainingAttempts : Option Nat
  timeUntilReset : Option Int
  resetTime : Option Int
deriving Repr, DecidableEq

/-- checkRateLimit (humanVerification.js rateLimiter lines 139-177):
filters the stored attempts to the rolling window, resets the entry when
its fixed window has expired, reports limited when at least MAX_ATTEMPTS
remain, and writes the updated entry back.  Returns the status together
with the updated store. -/
def checkRateLimit (identifier : String) (now : Int) (store : AttemptStore) :
    RateLimitStatus × AttemptStore :=
  if identifier = "" then
    ({ limited := false, remainingAttempts := none,
       timeUntilReset := none, resetTime := none }, store)
  else
    let userAttempts := (storeGet store identifier).getD { attempts := [], lastReset := now }
    let validAttempts := userAttempts.attempts.filter
      (fun t => decide (now - t < RATE_LIMIT_WINDOW))
    let userAttempts2 : UserAttempts :=
      if RATE_LIMIT_WINDOW ≤ now - userAttempts.lastReset then
        { attempts := [], lastReset := now }
      else
        { userAttempts with attempts := validAttempts }
    let isLimited := decide (MAX_ATTEMPTS ≤ userAttempts2.attempts.length)
    let remainingAttempts := MAX_ATTEMPTS - userAttempts2.attempts.length
    let resetTime := userAttempts2.lastReset + RATE_LIMIT_WINDOW
    let timeUntilReset := max 0 (resetTime - now)
    ({ limited := isLimited, remainingAttempts := some remainingAttempts,
       timeUntilReset := some timeUntilReset, resetTime := some resetTime },
     storeSet store identifier userAttempts2)

/-- recordAttempt (humanVerification.js rateLimiter lines 183-194):
appends the current timestamp to the identifier's attempt list. -/
def recordAttempt (identifier : String) (now : Int) (store : AttemptStore) :
    AttemptStore :=
  if identifier = "" then store
  else
    let userAttempts := (storeGet store identifier).getD { attempts := [], lastReset := now }
    storeSet store identifier
      { userAttempts with attempts := userAttempts.attempts ++ [now] }

/-- Store for the C4 counterexample, built through recordAttempt: one
attempt at time 0 (which pins lastReset to 0) and five attempts just after
the one-hour mark. -/
def c4Store : AttemptStore :=
  recordAttempt "alice" 3600005 (recordAttempt "alice" 3600004
    (recordAttempt "alice" 3600003 (recordAttempt "alice" 3600002
      (recordAttempt "alice" 3600001 (recordAttempt "alice" 0 ([] : AttemptStore))))))

/-- C4 fails as stated: at time 3600010 the identifier has exactly five
recorded attempts inside the rolling one-hour window, yet checkRateLimit
reports limited = false, because the entry's fixed window (lastReset = 0)
has expired and the attempt list is cleared. -/
theorem c4_counterexample :
    (((storeGet c4Store "alice").getD { attempts := [], lastReset := 0 }).attempts.filter
      (fun t => decide ((3600010 : Int) - t < RATE_LIMIT_WINDOW))).length = 5 ∧
    (checkRateLimit "alice" 3600010 c4Store).1.limited = false := by
  decide

/-- C4 (amended): when the identifier's entry exists and its fixed window
has not expired (now - lastReset < one hour), five or more attempts inside
the rolling one-hour window make checkRateLimit report limited = true; and
for any identifier whose entry holds fewer than five attempts inside the
rolling window (in particular any other identifier), checkRateLimit
reports limited = false. -/
theorem c4_rate_limit (store : AttemptStore) (identifier : String) (now : Int) :
    (∀ e : UserAttempts, identifier ≠ "" →
      storeGet store identifier = some e →
      now - e.lastReset < RATE_LIMIT_WINDOW →
      MAX_ATTEMPTS ≤ (e.attempts.filter
        (fun t => decide (now - t < RATE_LIMIT_WINDOW))).length →
      (checkRateLimit identifier now store).1.limited = true) ∧
    ((∀ e : UserAttempts, storeGet store identifier = some e →
        (e.attempts.filter (fun t => decide (now - t < RATE_LIMIT_WINDOW))).length
          < MAX_ATTEMPTS) →
      (checkRateLimit identifier now store).1.limited = false) := by
  have hWindow : RATE_LIMIT_WINDOW = 3600000 := by decide
  constructor
  · intro e hid hget hwin hlen
    have hreset : ¬ RATE_LIMIT_WINDOW ≤ now - e.lastReset := by omega
    simp [checkRateLimit, hid, hget, hreset, hlen]
  · intro hfew
    by_cases hid : identifier = ""
    · simp [checkRateLimit, hid]
    · cases hget : storeGet store identifier with
      | none =>
        have hreset : ¬ RATE_LIMIT_WINDOW ≤ now - now := by omega
        simp [checkRateLimit, hid, hget, hreset, MAX_ATTEMPTS]
      | some e =>
        by_cases hreset : RATE_LIMIT_WINDOW ≤ now - e.lastReset
        · simp [checkRateLimit, hid, hget, hreset, MAX_ATTEMPTS]
        · have := Nat.not_le.mpr (hfew e hget)
          simp [checkRateLimit, hid, hget, hreset, this]

/-- Concrete instantiation of c4_rate_limit: five fresh attempts limit the
identifier, and a different identifier with no attempts is not limited. -/
theorem c4_witness :
    (checkRateLimit "alice" 10 (recordAttempt "alice" 4 (recordAttempt "alice" 3
      (recordAttempt "alice" 2 (recordAttempt "alice" 1
        (recordAttempt "alice" 0 ([] : AttemptStore))))))).1.limited = true ∧
    (checkRateLimit "bob" 10 (recordAttempt "alice" 4 (recordAttempt "alice" 3
      (recordAttempt "alice" 2 (recordAttempt "alice" 1
        (recordAttempt "alice" 0 ([] : AttemptStore))))))).1.limited = false := by
  constructor
  · exact (c4_rate_limit (recordAttempt "alice" 4 (recordAttempt "alice" 3
      (recordAttempt "alice" 2 (recordAttempt "alice" 1
        (recordAttempt "alice" 0 ([] : AttemptStore)))))) "alice" 10).1
      { attempts := [0, 1, 2, 3, 4], lastReset := 0 }
      (by decide) (by decide) (by decide) (by decide)
  · exact (c4_rate_limit (recordAttempt "alice" 4 (recordAttempt "alice" 3
      (recordAttempt "alice" 2 (recordAttempt "alice" 1
        (recordAttempt "alice" 0 ([] : AttemptStore)))))) "bob" 10).2
      (by decide)

/-- A human-verification challenge (humanVerification.js): question text,
expected answer, creation timestamp (ms). -/
structure Challenge where
  question : String
  answer : String
  timestamp : Int
deriving Repr, DecidableEq

/-- Return value of the verification functions.  verifyMathChallenge
returns the bare boolean false when the challenge or answer is missing;
otherwise both functions return an object with a success flag and an
optional error string. -/
inductive VerifyReturn where
  | jsFalse : VerifyReturn
  | obj : Bool → Option String → VerifyReturn
deriving Repr, DecidableEq

/-- Five minutes in milliseconds. -/
def fiveMinutes : Int := 5 * 60 * 1000

/-- verifyMathChallenge (humanVerification.js lines 21-39): missing
challenge or empty answer returns the bare false; an expired challenge
(strictly more than five minutes old) fails with the expiry error; then
the trimmed answer is compared with the expected answer. -/
def verifyMathChallenge (challenge : Option Challenge) (userAnswer : String)
    (now : Int) : VerifyReturn :=
  match challenge with
  | none => .jsFalse
  | some c =>
    if userAnswer = "" then .jsFalse
    else if fiveMinutes < now - c.timestamp then
      .obj false (some "Verification expired. Please try again.")
    else if userAnswer.trim = c.answer then .obj true none
    else .obj false (some "Incorrect answer. Please try again.")

/-- verifyImageChallenge (humanVerification.js lines 81-99): missing
challenge or empty answer fails with the invalid-input error; an expired
challenge fails with the expiry error; then the trimmed lower-cased answer
is compared case-insensitively. -/
def verifyImageChallenge (challenge : Option Challenge) (userAnswer : String)
    (now : Int) : VerifyReturn :=
  match challenge with
  | none => .obj false (some "Invalid challenge or answer")
  | some c =>
    if userAnswer = "" then .obj false (some "Invalid challenge or answer")
    else if fiveMinutes < now - c.timestamp then
      .obj false (some "Verification expired. Please try again.")
    else if userAnswer.trim.toLower = c.answer.toLower then .obj true none
    else .obj false (some "Incorrect answer. Please try again.")

/-- C7 fails as stated for the empty answer: on a challenge created at
time 0 and verified at time 300001 (more than five minutes later), the
empty answer is rejected by the input guard before the expiry check, so
the reported error is not the expiry error. -/
theorem c7_counterexample :
    verifyImageChallenge (some { question := "q", answer := "3", timestamp := 0 })
      "" 300001 = .obj false (some "Invalid challenge or answer") ∧
    verifyMathChallenge (some { question := "q", answer := "3", timestamp := 0 })
      "" 300001 = .jsFalse ∧
    ¬ verifyImageChallenge (some { question := "q", answer := "3", timestamp := 0 })
      "" 300001 = .obj false (some "Verification expired. Please try again.") := by
  decide

/-- C7 (amended): for every challenge and every non-empty answer, when
strictly more than five minutes separate the creation timestamp from the
verification time, both verifyMathChallenge and verifyImageChallenge fail
with the expiry error, whether or not the answer is correct. -/
theorem c7_expiry (c : Challenge) (userAnswer : String) (now : Int)
    (hne : userAnswer ≠ "") (hexp : fiveMinutes < now - c.timestamp) :
    verifyMathChallenge (some c) userAnswer now =
      .obj false (some "Verification expired. Please try again.") ∧
    verifyImageChallenge (some c) userAnswer now =
      .obj false (some "Verification expired. Please try again.") := by
  constructor
  · simp [verifyMathChallenge, hne, hexp]
  · simp [verifyImageChallenge, hne, hexp]

/-- Challenge used by the C7 witness. -/
def c7Challenge : Challenge :=
  { question := "What is 1 + 2?", answer := "3", timestamp := 0 }

/-- Concrete instantiation of c7_expiry: a correct answer given six
minutes late is still rejected as expired. -/
theorem c7_witness :
    verifyMathChallenge (some c7Challenge) "3" 360000 =
      .obj false (some "Verification expired. Please try again.") ∧
    verifyImageChallenge (some c7Challenge) "3" 360000 =
      .obj false (some "Verification expired. Please try again.") :=
  c7_expiry c7Challenge "3" 360000 (by decide) (by decide)

/-- The character a decimal digit renders to (model of the digits produced
by Number.prototype.toString for base 10). -/
def digitChar (d : Nat) : Char :=
  match d with
  | 0 => '0' | 1 => '1' | 2 => '2' | 3 => '3' | 4 => '4'
  | 5 => '5' | 6 => '6' | 7 => '7' | 8 => '8' | 9 => '9'
  | _ => '0'

/-- Decimal digit list of a natural number, most significant first (model
of Number.prototype.toString for nonnegative integers). -/
def decDigits (n : Nat) : List Char :=
  if h : n < 10 then [digitChar n]
  else decDigits (n / 10) ++ [digitChar (n % 10)]
termination_by n
decreasing_by exact Nat.div_lt_self (by omega) (by omega)

/-- Number.prototype.toString for a natural number. -/
def jsNatToString (n : Nat) : String := String.mk (decDigits n)

/-- String.prototype.padStart(2, zero): left-pad with zeros to length two. -/
def padStart2 (s : String) : String :=
  if 2 ≤ s.length then s
  else String.mk (List.replicate (2 - s.length) '0') ++ s

/-- ASCII decimal digit test. -/
def isAsciiDigit (c : Char) : Bool :=
  decide (48 ≤ c.toNat) && decide (c.toNat ≤ 57)

/-- The suffix alphabet of generateBookingReference. -/
def referenceChars : List Char := "ABCDEFGHIJKLMNOPQRSTUVWXYZ0123456789".data

/-- generateBookingReference (src/src/lib/emailService.js lines 27-42):
concatenates ADR-, the current date rendered as year, zero-padded
month (getMonth is zero-based, hence the + 1) and zero-padded day, a
hyphen, and four characters drawn from the 36-character alphabet by
Math.floor(Math.random() * characters.length), modelled as four
externally supplied indices below 36. -/
def generateBookingReference (year monthIndex day : Nat)
    (randoms : Fin 4 → Fin 36) : String :=
  let datePart := jsNatToString year ++ padStart2 (jsNatToString (monthIndex + 1))
    ++ padStart2 (jsNatToString day)
  let suffix := String.mk ((List.finRange 4).map
    (fun i => referenceChars.getD (randoms i).val 'A'))
  "ADR-" ++ datePart ++ "-" ++ suffix

theorem digitChar_isAsciiDigit : ∀ d : Nat, isAsciiDigit (digitChar d) = true
  | 0 => rfl
  | 1 => rfl
  | 2 => rfl
  | 3 => rfl
  | 4 => rfl
  | 5 => rfl
  | 6 => rfl
  | 7 => rfl
  | 8 => rfl
  | 9 => rfl
  | (_ + 10) => rfl

theorem decDigits_all_digits (n : Nat) :
    (decDigits n).all isAsciiDigit = true := by
  induction n using Nat.strong_induction_on with
  | _ n ih =>
    rw [decDigits]
    by_cases h : n < 10
    · simp [h, digitChar_isAsciiDigit]
    · rw [dif_neg h, List.all_append, Bool.and_eq_true]
      exact ⟨ih (n / 10) (Nat.div_lt_self (by omega) (by omega)),
        by simp [digitChar_isAsciiDigit]⟩

theorem decDigits_length_of_lt_ten {n : Nat} (h : n < 10) :
    (decDigits n).length = 1 := by
  rw [decDigits, dif_pos h]
  rfl

theorem decDigits_length_four {n : Nat} (h1 : 1000 ≤ n) (h2 : n < 10000) :
    (decDigits n).length = 4 := by
  have d1 : ¬ n < 10 := by omega
  have q1 : 100 ≤ n / 10 := by omega
  have q1b : n / 10 < 1000 := by omega
  have d2 : ¬ n / 10 < 10 := by omega
  have q2 : 10 ≤ n / 10 / 10 := by omega
  have q2b : n / 10 / 10 < 100 := by omega
  have d3 : ¬ n / 10 / 10 < 10 := by omega
  have q3 : n / 10 / 10 / 10 < 10 := by omega
  rw [decDigits, dif_neg d1, decDigits, dif_neg d2, decDigits, dif_neg d3,
    decDigits, dif_pos q3]
  simp

theorem padStart2_two_digits {n : Nat} (h : n < 100) :
    (padStart2 (jsNatToString n)).length = 2 ∧
    (padStart2 (jsNatToString n)).data.all isAsciiDigit = true := by
  by_cases h10 : n < 10
  · have hlen : (jsNatToString n).length = 1 := by
      simp [jsNatToString, decDigits_length_of_lt_ten h10]
    constructor
    · rw [padStart2, if_neg (by omega)]
      simp only [String.length_append]
      rw [hlen]
      rfl
    · rw [padStart2, if_neg (by omega)]
      have hdata : (String.mk (List.replicate (2 - (jsNatToString n).length) '0')
          ++ jsNatToString n).data =
          List.replicate (2 - (jsNatToString n).length) '0' ++ (jsNatToString n).data := rfl
      rw [hdata, List.all_append, Bool.and_eq_true]
      refine ⟨?_, by simpa [jsNatToString] using decDigits_all_digits n⟩
      rw [hlen]
      decide
  · have hlen : (jsNatToString n).length = 2 := by
      have d1 : ¬ n < 10 := h10
      have q1 : n / 10 < 10 := by omega
      have hstep : decDigits n = decDigits (n / 10) ++ [digitChar (n % 10)] := by
        rw [decDigits, dif_neg d1]
      simp [jsNatToString, hstep, decDigits_length_of_lt_ten q1]
    rw [padStart2, if_pos (by omega)]
    exact ⟨hlen, by simpa [jsNatToString] using decDigits_all_digits n⟩

theorem referenceChars_getD_mem {k : Nat} (h : k < 36) :
    referenceChars.getD k 'A' ∈ referenceChars := by
  have : ∀ m, m < 36 → referenceChars.getD m 'A' ∈ referenceChars := by decide
  exact this k h

/-- C5: under the realistic date bounds (four-digit year, calendar month
index and day), every generated booking reference is ADR-, eight decimal
digits (year, zero-padded month, zero-padded day), a hyphen, and four
characters of the uppercase-alphanumeric alphabet. -/
theorem c5_reference_pattern (year monthIndex day : Nat) (randoms : Fin 4 → Fin 36)
    (hy1 : 1000 ≤ year) (hy2 : year < 10000) (hm : monthIndex < 12) (hd : day < 100) :
    ∃ datePart suffix : String,
      generateBookingReference year monthIndex day randoms =
        "ADR-" ++ datePart ++ "-" ++ suffix ∧
      datePart.length = 8 ∧ datePart.data.all isAsciiDigit = true ∧
      suffix.length = 4 ∧ ∀ c ∈ suffix.data, c ∈ referenceChars := by
  refine ⟨jsNatToString year ++ padStart2 (jsNatToString (monthIndex + 1))
    ++ padStart2 (jsNatToString day),
    String.mk ((List.finRange 4).map (fun i => referenceChars.getD (randoms i).val 'A')),
    rfl, ?_, ?_, ?_, ?_⟩
  · have hYear : (jsNatToString year).length = 4 := by
      simp [jsNatToString, decDigits_length_four hy1 hy2]
    have hMonth := (padStart2_two_digits (n := monthIndex + 1) (by omega)).1
    have hDay := (padStart2_two_digits hd).1
    simp [String.length_append, hYear, hMonth, hDay]
  · have hYear : (jsNatToString year).data.all isAsciiDigit = true := by
      simpa [jsNatToString] using decDigits_all_digits year
    have hMonth := (padStart2_two_digits (n := monthIndex + 1) (by omega)).2
    have hDay := (padStart2_two_digits hd).2
    have hdata : (jsNatToString year ++ padStart2 (jsNatToString (monthIndex + 1))
        ++ padStart2 (jsNatToString day)).data =
        (jsNatToString year).data ++ (padStart2 (jsNatToString (monthIndex + 1))).data
          ++ (padStart2 (jsNatToString day)).data := rfl
    rw [hdata, List.all_append, List.all_append]
    simp [hYear, hMonth, hDay]
  · simp [String.length]
  · intro c hc
    rcases List.mem_map.mp hc with ⟨i, -, hi⟩
    rw [← hi]
    exact referenceChars_getD_mem (randoms i).isLt

/-- Concrete instantiation of c5_reference_pattern at 2026-10-12. -/
theorem c5_witness :
    ∃ datePart suffix : String,
      generateBookingReference 2026 9 12 (fun _ => (0 : Fin 36)) =
        "ADR-" ++ datePart ++ "-" ++ suffix ∧
      datePart.length = 8 ∧ datePart.data.all isAsciiDigit = true ∧
      suffix.length = 4 ∧ ∀ c ∈ suffix.data, c ∈ referenceChars :=
  c5_reference_pattern 2026 9 12 (fun _ => (0 : Fin 36))
    (by decide) (by decide) (by decide) (by decide)

/-- ToInt32: JavaScript 32-bit signed truncation, as applied by the
bitwise operators in hashPassword. -/
def toInt32 (n : Int) : Int :=
  let m := n % 4294967296
  if m < 2147483648 then m else m - 4294967296

/-- One loop iteration of hashPassword (src/unnamed/part_003 lines
147-156): hash = ((hash << 5) - hash) + charCode followed by
hash = hash & hash.  The shift truncates to 32 bits, the subtraction and
addition are exact, and the final bitwise and truncates again. -/
def hashStep (h : Int) (c : Nat) : Int :=
  toInt32 (toInt32 (h * 32) - h + c)

/-- The character a hexadecimal digit renders to (lowercase, as produced
by Number.prototype.toString(16)). -/
def hexDigitChar (d : Nat) : Char :=
  match d with
  | 0 => '0' | 1 => '1' | 2 => '2' | 3 => '3' | 4 => '4'
  | 5 => '5' | 6 => '6' | 7 => '7' | 8 => '8' | 9 => '9'
  | 10 => 'a' | 11 => 'b' | 12 => 'c' | 13 => 'd' | 14 => 'e' | 15 => 'f'
  | _ => '0'

/-- Worker for hexDigits: structural recursion on a fuel argument so the
function evaluates by kernel reduction; the fuel never runs out because a
number below 16 to the fuel needs at most fuel digits. -/
def hexDigitsCore : Nat → Nat → List Char → List Char
  | 0, _, acc => acc
  | fuel + 1, n, acc =>
    if n < 16 then hexDigitChar n :: acc
    else hexDigitsCore fuel (n / 16) (hexDigitChar (n % 16) :: acc)

/-- Hexadecimal digit list of a natural number, most significant first. -/
def hexDigits (n : Nat) : List Char := hexDigitsCore (n + 1) n []

/-- Number.prototype.toString(16) on an integer-valued number: negative
values render as a minus sign followed by the magnitude in hexadecimal. -/
def jsIntToHexString (n : Int) : String :=
  if n < 0 then "-" ++ String.mk (hexDigits n.natAbs)
  else String.mk (hexDigits n.toNat)

/-- hashPassword (src/unnamed/part_003 lines 147-156): fold hashStep over
the character codes of the password and render the 32-bit result in
hexadecimal.  Characters are taken as UTF-16 code units; for the basic
multilingual plane these coincide with the code points used here. -/
def hashPassword (password : String) : String :=
  jsIntToHexString (password.data.foldl (fun h c => hashStep h c.toNat) 0)

/-- The payload of the JWT minted by loginAdmin: role claim, issued-at,
expiration.  setExpirationTime(1h) makes the token expire 3600 seconds
after issuance; the signature itself is the jose library's. -/
structure AdminToken where
  role : String
  issuedAt : Int
  expiresAt : Int
deriving Repr, DecidableEq

/-- The object returned by loginAdmin. -/
structure LoginResult where
  success : Bool
  message : Option String
  token : Option AdminToken
deriving Repr, DecidableEq

/-- loginAdmin (src/unnamed/part_003 lines 69-115): requires the admin
client; reads the stored password hash from the settings table (modelled
as the lookup outcome: error, missing row, or the stored value); an empty
stored value means the account is not set up; otherwise the hash of the
supplied password is compared with the stored hash, minting a role-admin
token with a one-hour expiration on match and failing with Invalid
password otherwise.  now is the issuance time in seconds. -/
def loginAdmin (adminAvailable : Bool) (settingsValue : Except String (Option String))
    (password : String) (now : Int) : LoginResult :=
  if adminAvailable = false then
    { success := false, message := some "Admin access not available", token := none }
  else
    match settingsValue with
    | .error _ =>
      { success := false, message := some "Error retrieving admin credentials",
        token := none }
    | .ok none =>
      { success := false, message := some "Admin account not set up", token := none }
    | .ok (some storedHash) =>
      if storedHash = "" then
        { success := false, message := some "Admin account not set up", token := none }
      else if hashPassword password = storedHash then
        { success := true, message := none,
          token := some { role := "admin", issuedAt := now, expiresAt := now + 3600 } }
      else
        { success := false, message := some "Invalid password", token := none }

/-- C6: with the admin client available and a non-empty stored hash,
loginAdmin succeeds exactly when the rolling hash of the supplied password
equals the stored hash; on success the minted token carries role admin and
expires one hour after issuance, and on mismatch the result is a failure
with message Invalid password. -/
theorem c6_login (password : String) (storedHash : String) (now : Int)
    (hne : storedHash ≠ "") :
    ((loginAdmin true (.ok (some storedHash)) password now).success = true ↔
      hashPassword password = storedHash) ∧
    (hashPassword password = storedHash →
      loginAdmin true (.ok (some storedHash)) password now =
        { success := true, message := none,
          token := some { role := "admin", issuedAt := now, expiresAt := now + 3600 } }) ∧
    (hashPassword password ≠ storedHash →
      loginAdmin true (.ok (some storedHash)) password now =
        { success := false, message := some "Invalid password", token := none }) := by
  refine ⟨?_, ?_, ?_⟩
  · constructor
    · intro hs
      by_contra hne2
      simp [loginAdmin, hne, hne2] at hs
    · intro heq
      simp [loginAdmin, hne, heq]
  · intro heq
    simp [loginAdmin, hne, heq]
  · intro hne2
    simp [loginAdmin, hne, hne2]

/-- Concrete instantiation of c6_login: the stored hash 61 is the rolling
hash of the one-character password a, so that password logs in and the
resulting token is a role-admin token expiring after one hour, while the
password b is rejected with Invalid password. -/
theorem c6_witness :
    loginAdmin true (.ok (some "61")) "a" 0 =
      { success := true, message := none,
        token := some { role := "admin", issuedAt := 0, expiresAt := 3600 } } ∧
    loginAdmin true (.ok (some "61")) "b" 0 =
      { success := false, message := some "Invalid password", token := none } :=
  ⟨(c6_login "a" "61" 0 (by decide)).2.1 (by decide),
   (c6_login "b" "61" 0 (by decide)).2.2 (by decide)⟩

/-- A thrown JavaScript error as inspected by the catch blocks: message
text and optional backend error code. -/
structure JsError where
  message : String
  code : Option String
deriving Repr, DecidableEq

/-- String.prototype.includes. -/
def jsIncludes (s pat : String) : Bool :=
  decide (pat.data <:+: s.data)

/-- verifySlotAvailability (src/src/lib/supabase.js lines 241-270): select
is_available of the slot row with the given id, with single(), which
errors unless exactly one row matches; the RLS fallback issues the same
query through the admin client and is collapsed here. -/
def verifySlotAvailability (db : Database) (slotId : Nat) : Except JsError Bool :=
  match db.slots.filter (fun s => s.id = slotId) with
  | [s] => .ok s.is_available
  | _ => .error { message := "JSON object requested, multiple (or no) rows returned",
                  code := none }

/-- EmailJS configuration constants of src/src/lib/emailService.js; an
empty string models a missing value. -/
structure EmailConfig where
  serviceId : String
  templateId : String
  publicKey : String
deriving Repr, DecidableEq

/-- The object resolved by sendBookingConfirmationEmail. -/
structure EmailResult where
  success : Bool
  error : Option String
  reference : Option String
deriving Repr, DecidableEq

/-- sendBookingConfirmationEmail (src/src/lib/emailService.js lines
49-137): a missing configuration value fails with a fixed message; the
emailjs.send call is modelled by its outcome (a thrown error message or a
response status); a 200 status succeeds carrying the booking reference
(the provided one, or the freshly generated one when the provided one is
empty), any other status throws into the catch block, and the catch block
returns a failure whose error is the thrown message or a fallback.  The
internal date-formatting try/catch only shapes template parameters and
cannot change this result. -/
def sendBookingConfirmationEmail (cfg : EmailConfig)
    (providedReference generatedReference : String)
    (send : Except String Nat) : EmailResult :=
  if cfg.serviceId = "" ∨ cfg.templateId = "" ∨ cfg.publicKey = "" then
    { success := false, error := some "Email service not configured", reference := none }
  else
    let bookingReference :=
      if providedReference = "" then generatedReference else providedReference
    match send with
    | .ok status =>
      if status = 200 then
        { success := true, error := none, reference := some bookingReference }
      else
        { success := false,
          error := some ("Email service returned status: " ++ toString status),
          reference := none }
    | .error msg =>
      { success := false,
        error := some (if msg = "" then "Unknown error sending email" else msg),
        reference := none }

/-- The booking form state of BookingPage.jsx. -/
structure FormData where
  name : String
  email : String
  groupId : String
  notes : String
deriving Repr, DecidableEq

/-- Result of validateBookingForm, consumed by the submit handler. -/
structure ValidationResult where
  success : Bool
  error : String
  field : String
deriving Repr, DecidableEq

/-- Result of getUserReservationCount.  The function is imported by
BookingPage.jsx from the database module but its body is not part of the
sources; only the shape of its result (a success flag and the number of
active reservations) is consumed by the handler, so it enters the model
as an input. -/
structure CountResult where
  success : Bool
  count : Nat
deriving Repr, DecidableEq

/-- Result of registerUser (src/unnamed/part_006 lines 16-84) as consumed
by the submit handler: a success flag and an error message (empty models
a missing message). -/
structure RegistrationResult where
  success : Bool
  error : String
deriving Repr, DecidableEq

/-- JavaScript a || b for strings: the first operand unless it is empty. -/
def jsOr (a b : String) : String := if a = "" then b else a

/-- formatTimeUntilReset (humanVerification.js rateLimiter lines 201-213):
milliseconds rendered as whole hours, else minutes, else seconds. -/
def formatTimeUntilReset (milliseconds : Int) : String :=
  let seconds := milliseconds.fdiv 1000
  let minutes := seconds.fdiv 60
  let hours := minutes.fdiv 60
  if 0 < hours then
    toString hours ++ " hour" ++ (if 1 < hours then "s" else "")
  else if 0 < minutes then
    toString minutes ++ " minute" ++ (if 1 < minutes then "s" else "")
  else
    toString seconds ++ " second" ++ (if seconds ≠ 1 then "s" else "")

/-- The catch block of handleSubmit (src/src/pages/BookingPage.jsx lines
291-307): a service-key message maps to the admin-permissions error, code
42501 to the permission-denied error, otherwise the thrown message (or a
generic one when empty) is shown. -/
def bookingErrorMessage (e : JsError) : String :=
  if e.message ≠ "" ∧ jsIncludes e.message "Service key not configured" = true then
    "Admin permissions required. Please add a service key in your .env.local file to complete bookings."
  else if e.code = some "42501" then
    "Permission denied. The application lacks necessary database permissions for completing bookings."
  else if e.message ≠ "" then e.message
  else "There was an error creating your booking. Please try again."

/-- The observable effects of one run of the submit handler: the error
shown to the user (none when cleared or untouched), whether the selected
slot was reset to null, whether registerUser and createReservation were
invoked, and whether the booking was marked successful. -/
structure SubmitOutcome where
  submitError : Option String
  selectionCleared : Bool
  registerUserCalled : Bool
  createReservationCalled : Bool
  submitSuccess : Bool
deriving Repr, DecidableEq

/-- handleSubmit (src/src/pages/BookingPage.jsx lines 165-311).  The
remote calls are modelled by their outcomes: the attempt store and clock
feed checkRateLimit exactly as in the source, the reservation-count result
and registration result are inputs, slot availability is computed from the
database state by verifySlotAvailability, createReservation is its
throw-or-return outcome, and the confirmation-email result is an input
that the handler fires and forgets.  The guards run in source order:
validation, human verification, rate limit and one-reservation limit
(only for a non-empty email), just-in-time availability, registration,
creation. -/
def handleSubmit (validation : ValidationResult) (isHumanVerified : Bool)
    (formData : FormData) (store : AttemptStore) (now : Int)
    (countResult : CountResult) (db : Database) (slotId : Nat)
    (registration : RegistrationResult) (creation : Except JsError Unit)
    (emailResult : EmailResult) : SubmitOutcome :=
  if validation.success = false then
    { submitError := some validation.error, selectionCleared := false,
      registerUserCalled := false, createReservationCalled := false,
      submitSuccess := false }
  else if isHumanVerified = false then
    { submitError := some "Please complete the human verification challenge before booking.",
      selectionCleared := false, registerUserCalled := false,
      createReservationCalled := false, submitSuccess := false }
  else if formData.email ≠ "" ∧ (checkRateLimit formData.email now store).1.limited = true then
    { submitError := some ("You\u0027ve reached the maximum number of booking attempts. Please try again in "
        ++ formatTimeUntilReset ((checkRateLimit formData.email now store).1.timeUntilReset.getD 0) ++ "."),
      selectionCleared := false, registerUserCalled := false,
      createReservationCalled := false, submitSuccess := false }
  else if formData.email ≠ "" ∧ countResult.success = true ∧ 1 ≤ countResult.count then
    { submitError := some "You already have an active reservation. Please cancel your existing reservation before making a new one. You can manage your reservations in your profile page.",
      selectionCleared := false, registerUserCalled := false,
      createReservationCalled := false, submitSuccess := false }
  else
    match verifySlotAvailability db slotId with
    | .error e =>
      { submitError := some (bookingErrorMessage e), selectionCleared := false,
        registerUserCalled := false, createReservationCalled := false,
        submitSuccess := false }
    | .ok false =>
      { submitError := some "This slot has just been booked by someone else. Please select another time slot.",
        selectionCleared := true, registerUserCalled := false,
        createReservationCalled := false, submitSuccess := false }
    | .ok true =>
      if registration.success = false then
        { submitError := some (bookingErrorMessage
            { message := jsOr registration.error "Failed to register user", code := none }),
          selectionCleared := false, registerUserCalled := true,
          createReservationCalled := false, submitSuccess := false }
      else
        match creation with
        | .error e =>
          { submitError := some (bookingErrorMessage e), selectionCleared := false,
            registerUserCalled := true, createReservationCalled := true,
            submitSuccess := false }
        | .ok _ =>
          { submitError := none, selectionCleared := false,
            registerUserCalled := true, createReservationCalled := true,
            submitSuccess := true }

/-- C3: in a submission run that reaches the just-in-time availability
check (form valid, human verified, and for a non-empty email neither
rate-limited nor blocked by an existing reservation), when
verifySlotAvailability reports the selected slot unavailable, the submit
handler shows the slot-taken error, clears the slot selection, and calls
neither registerUser nor createReservation. -/
theorem c3_unavailable_slot_rejected (validation : ValidationResult)
    (formData : FormData) (store : AttemptStore) (now : Int)
    (countResult : CountResult) (db : Database) (slotId : Nat)
    (registration : RegistrationResult) (creation : Except JsError Unit)
    (emailResult : EmailResult)
    (hv : validation.success = true)
    (hrl : formData.email ≠ "" → (checkRateLimit formData.email now store).1.limited = false)
    (hcount : formData.email ≠ "" → ¬(countResult.success = true ∧ 1 ≤ countResult.count))
    (havail : verifySlotAvailability db slotId = .ok false) :
    handleSubmit validation true formData store now countResult db slotId
      registration creation emailResult =
    { submitError := some "This slot has just been booked by someone else. Please select another time slot.",
      selectionCleared := true, registerUserCalled := false,
      createReservationCalled := false, submitSuccess := false } := by
  have h1 : ¬(formData.email ≠ "" ∧ (checkRateLimit formData.email now store).1.limited = true) := by
    rintro ⟨he, hl⟩
    rw [hrl he] at hl
    exact Bool.false_ne_true hl
  have h2 : ¬(formData.email ≠ "" ∧ countResult.success = true ∧ 1 ≤ countResult.count) := by
    rintro ⟨he, hc⟩
    exact hcount he hc
  simp [handleSubmit, hv, h1, h2, havail]

/-- Database used by the C3, C8 and C9 witnesses: slot 1 is no longer
available, slot 2 is available. -/
def c3Db : Database :=
  { slots := [{ id := 1, start_time := 0, end_time := 10, is_available := false },
      { id := 2, start_time := 20, end_time := 30, is_available := true }],
    reservations := [] }

/-- Validation result used by the C3, C8 and C9 witnesses. -/
def okValidation : ValidationResult := { success := true, error := "", field := "" }

/-- Form data used by the C3, C8 and C9 witnesses. -/
def c3Form : FormData :=
  { name := "Ada", email := "ada@example.com", groupId := "", notes := "" }

/-- Concrete instantiation of c3_unavailable_slot_rejected at slot 1. -/
theorem c3_witness :
    handleSubmit okValidation true c3Form ([] : AttemptStore) 0
      { success := true, count := 0 } c3Db 1
      { success := true, error := "" } (.ok ()) { success := true, error := none, reference := none } =
    { submitError := some "This slot has just been booked by someone else. Please select another time slot.",
      selectionCleared := true, registerUserCalled := false,
      createReservationCalled := false, submitSuccess := false } :=
  c3_unavailable_slot_rejected okValidation c3Form ([] : AttemptStore) 0
    { success := true, count := 0 } c3Db 1
    { success := true, error := "" } (.ok ()) { success := true, error := none, reference := none }
    (by decide) (fun _ => by decide) (fun _ => by decide) rfl

/-- C8: sendBookingConfirmationEmail always returns an object with a
success flag, never throwing: every outcome is either a success with no
error or a failure carrying an error string (misconfiguration and a
failing or throwing send included); and in the booking flow an
unsuccessful email result leaves the handler marking the booking
successful, since the email is sent without awaiting its result. -/
theorem c8_email_failure_isolated :
    (∀ (cfg : EmailConfig) (providedReference generatedReference : String)
      (send : Except String Nat),
      ((sendBookingConfirmationEmail cfg providedReference generatedReference send).success = true ∧
        (sendBookingConfirmationEmail cfg providedReference generatedReference send).error = none) ∨
      ((sendBookingConfirmationEmail cfg providedReference generatedReference send).success = false ∧
        (sendBookingConfirmationEmail cfg providedReference generatedReference send).error ≠ none)) ∧
    (∀ (validation : ValidationResult) (formData : FormData) (store : AttemptStore)
      (now : Int) (countResult : CountResult) (db : Database) (slotId : Nat)
      (registration : RegistrationResult) (emailResult : EmailResult),
      validation.success = true →
      (formData.email ≠ "" → (checkRateLimit formData.email now store).1.limited = false) →
      (formData.email ≠ "" → ¬(countResult.success = true ∧ 1 ≤ countResult.count)) →
      verifySlotAvailability db slotId = .ok true →
      registration.success = true →
      emailResult.success = false →
      (handleSubmit validation true formData store now countResult db slotId
        registration (.ok ()) emailResult).submitSuccess = true) := by
  constructor
  · intro cfg providedReference generatedReference send
    by_cases hcfg : cfg.serviceId = "" ∨ cfg.templateId = "" ∨ cfg.publicKey = ""
    · right
      simp [sendBookingConfirmationEmail, hcfg]
    · cases send with
      | ok status =>
        by_cases h200 : status = 200
        · left
          simp [sendBookingConfirmationEmail, hcfg, h200]
        · right
          simp [sendBookingConfirmationEmail, hcfg, h200]
      | error msg =>
        right
        simp [sendBookingConfirmationEmail, hcfg]
  · intro validation formData store now countResult db slotId registration emailResult
      hv hrl hcount havail hreg hemail
    have h1 : ¬(formData.email ≠ "" ∧ (checkRateLimit formData.email now store).1.limited = true) := by
      rintro ⟨he, hl⟩
      rw [hrl he] at hl
      exact Bool.false_ne_true hl
    have h2 : ¬(formData.email ≠ "" ∧ countResult.success = true ∧ 1 ≤ countResult.count) := by
      rintro ⟨he, hc⟩
      exact hcount he hc
    simp [handleSubmit, hv, h1, h2, havail, hreg]

/-- Concrete instantiation of c8_email_failure_isolated: a throwing send
yields a failure object with an error string, and a failed email result
does not stop the booking from being marked successful. -/
theorem c8_witness :
    ((sendBookingConfirmationEmail { serviceId := "s", templateId := "t", publicKey := "k" }
        "" "ADR-20261012-AAAA" (.error "network down")).success = false ∧
      (sendBookingConfirmationEmail { serviceId := "s", templateId := "t", publicKey := "k" }
        "" "ADR-20261012-AAAA" (.error "network down")).error ≠ none) ∧
    (handleSubmit okValidation true c3Form ([] : AttemptStore) 0
      { success := true, count := 0 } c3Db 2
      { success := true, error := "" } (.ok ())
      { success := false, error := some "network down", reference := none }).submitSuccess = true := by
  constructor
  · rcases c8_email_failure_isolated.1
      { serviceId := "s", templateId := "t", publicKey := "k" }
      "" "ADR-20261012-AAAA" (.error "network down") with h | h
    · exact absurd h.1 (by decide)
    · exact h
  · exact c8_email_failure_isolated.2 okValidation c3Form ([] : AttemptStore) 0
      { success := true, count := 0 } c3Db 2
      { success := true, error := "" }
      { success := false, error := some "network down", reference := none }
      (by decide) (fun _ => by decide) (fun _ => by decide) rfl (by decide) (by decide)

/-- C9: in a submission run with a valid form, verification done, a
non-empty email that is not rate-limited, when the reservation-count
lookup succeeds with one or more active reservations, the submit handler
rejects with the one-active-reservation message and calls neither
registerUser nor createReservation. -/
theorem c9_single_reservation_limit (validation : ValidationResult)
    (formData : FormData) (store : AttemptStore) (now : Int)
    (countResult : CountResult) (db : Database) (slotId : Nat)
    (registration : RegistrationResult) (creation : Except JsError Unit)
    (emailResult : EmailResult)
    (hv : validation.success = true)
    (hemail : formData.email ≠ "")
    (hrl : (checkRateLimit formData.email now store).1.limited = false)
    (hcs : countResult.success = true)
    (hcnt : 1 ≤ countResult.count) :
    handleSubmit validation true formData store now countResult db slotId
      registration creation emailResult =
    { submitError := some "You already have an active reservation. Please cancel your existing reservation before making a new one. You can manage your reservations in your profile page.",
      selectionCleared := false, registerUserCalled := false,
      createReservationCalled := false, submitSuccess := false } := by
  have h1 : ¬(formData.email ≠ "" ∧ (checkRateLimit formData.email now store).1.limited = true) := by
    rintro ⟨-, hl⟩
    rw [hrl] at hl
    exact Bool.false_ne_true hl
  have h2 : formData.email ≠ "" ∧ countResult.success = true ∧ 1 ≤ countResult.count :=
    ⟨hemail, hcs, hcnt⟩
  simp [handleSubmit, hv, h1, h2, hrl]

/-- Concrete instantiation of c9_single_reservation_limit with one
existing active reservation. -/
theorem c9_witness :
    handleSubmit okValidation true c3Form ([] : AttemptStore) 0
      { success := true, count := 1 } c3Db 2
      { success := true, error := "" } (.ok ()) { success := true, error := none, reference := none } =
    { submitError := some "You already have an active reservation. Please cancel your existing reservation before making a new one. You can manage your reservations in your profile page.",
      selectionCleared := false, registerUserCalled := false,
      createReservationCalled := false, submitSuccess := false } :=
  c9_single_reservation_limit okValidation c3Form ([] : AttemptStore) 0
    { success := true, count := 1 } c3Db 2
    { success := true, error := "" } (.ok ()) { success := true, error := none, reference := none }
    (by decide) (by decide) (by decide) (by decide) (by decide)

/-- The effects of one run of handleSlotSelect: the error message written
(none when the handler clears the error or returns without touching it)
and the slot stored as the selection by this run, if any. -/
structure SelectOutcome where
  submitError : Option String
  selectedSlot : Option Slot
deriving Repr, DecidableEq

/-- The start of the hour following the current one: the current time
truncated down to the hour (setMinutes(0,0,0)) plus one hour
(setHours(+1)), in local-time milliseconds. -/
def nextHourBoundary (now : Int) : Int :=
  (now - now % 3600000) + 3600000

/-- isSlotDisabled (src/src/lib/calendarUtils.js lines 30-44): a slot is
disabled when its start time is at or before the next full-hour
boundary. -/
def isSlotDisabled (now slotStart : Int) : Bool :=
  decide (slotStart ≤ nextHourBoundary now)

/-- handleSlotSelect (src/src/pages/BookingPage.jsx lines 92-129): a
missing slot or falsy slot id (modelled as id 0) is ignored; a disabled
slot is refused with an error and no selection; otherwise the slot is
selected when verifySlotAvailability confirms it, with the matching error
message otherwise.  The removal of the quick URL parameter is a pure
navigation effect and is not part of the outcome. -/
def handleSlotSelect (slot : Option Slot) (now : Int) (db : Database) :
    SelectOutcome :=
  match slot with
  | none => { submitError := none, selectedSlot := none }
  | some s =>
    if s.id = 0 then { submitError := none, selectedSlot := none }
    else if isSlotDisabled now s.start_time then
      { submitError := some "Cannot select a slot in the past or within the next hour. Please select a future time slot.",
        selectedSlot := none }
    else
      match verifySlotAvailability db s.id with
      | .ok true => { submitError := none, selectedSlot := some s }
      | .ok false =>
        { submitError := some "This slot is no longer available. Please select another time slot.",
          selectedSlot := none }
      | .error _ =>
        { submitError := some "Error verifying slot availability. Please try again.",
          selectedSlot := none }

/-- C10: every slot whose start time is not strictly after the next
full-hour boundary is refused: isSlotDisabled returns true, and
handleSlotSelect reports the error without selecting the slot (for any
valid, non-falsy slot id and any database state). -/
theorem c10_near_slots_refused (now : Int) (s : Slot) (db : Database)
    (hid : s.id ≠ 0) (hstart : s.start_time ≤ nextHourBoundary now) :
    isSlotDisabled now s.start_time = true ∧
    handleSlotSelect (some s) now db =
      { submitError := some "Cannot select a slot in the past or within the next hour. Please select a future time slot.",
        selectedSlot := none } := by
  have hdis : isSlotDisabled now s.start_time = true := by
    simpa [isSlotDisabled] using hstart
  exact ⟨hdis, by simp [handleSlotSelect, hid, hdis]⟩

/-- Slot used by the C10 witness: it starts exactly at the next full-hour
boundary for time 0, hence is not strictly after it. -/
def c10Slot : Slot :=
  { id := 7, start_time := 3600000, end_time := 7200000, is_available := true }

/-- Concrete instantiation of c10_near_slots_refused at time 0. -/
theorem c10_witness :
    isSlotDisabled 0 c10Slot.start_time = true ∧
    handleSlotSelect (some c10Slot) 0 c3Db =
      { submitError := some "Cannot select a slot in the past or within the next hour. Please select a future time slot.",
        selectedSlot := none } :=
  c10_near_slots_refused 0 c10Slot c3Db (by decide) (by decide)

end AdrReservation
